import Mathlib

/-!
Verification of the user-account REST API of the no-code-app repository
(`src/app/api/v1/users/route.ts`, `src/app/api/v1/users/[userId]/route.ts`,
`src/app/api/v1/auth/login/route.ts`, `src/lib/validations.ts`,
`src/lib/errors.ts`), shallowly embedded in Lean 4.

Modelling conventions:
* A user record mirrors the Prisma `User` row used by the handlers.
  Timestamps are `Nat`, dates are kept as the submitted strings.
* The user store is a `List User`; `findUnique` by id / email is `List.find?`.
* External primitives (bcrypt comparison/hashing, JWT issue/verify, and
  the zod email / datetime regular expressions) are parameters of the
  handler functions: the handlers are proved correct for every choice of
  these functions.
* Request bodies are records of fields that are either absent or a JSON
  string, the only shapes the claims under study exercise; zod rejects a
  missing required field with the message "Required" and otherwise runs
  the per-field string checks of `validations.ts`, collecting every
  violation in schema-declaration order.
* A `Response` is a status code plus a body; user objects inside bodies
  are association lists of field name / value pairs so that presence or
  absence of the `password` key is observable.
-/

/-- A JSON-ish field value appearing inside a serialized user object. -/
inductive Value where
  | vStr (s : String)
  | vOptStr (s : Option String)
  | vBool (b : Bool)
  | vNat (n : Nat)
deriving DecidableEq, Repr

/-- A stored user row, after the Prisma `User` model used by the route
handlers: id, email, names, optional contact fields, password digest,
`hasBankAccount` flag and the two timestamps. -/
structure User where
  id : String
  email : String
  firstName : String
  lastName : String
  phoneNumber : Option String
  address : Option String
  dateOfBirth : Option String
  password : String
  hasBankAccount : Bool
  createdAt : Nat
  updatedAt : Nat
deriving DecidableEq, Repr

/-- All fields of a user row, as the JSON object Prisma returns when no
`select` clause restricts it. -/
def userFields (u : User) : List (String × Value) :=
  [ ("id", Value.vStr u.id)
  , ("email", Value.vStr u.email)
  , ("firstName", Value.vStr u.firstName)
  , ("lastName", Value.vStr u.lastName)
  , ("phoneNumber", Value.vOptStr u.phoneNumber)
  , ("address", Value.vOptStr u.address)
  , ("dateOfBirth", Value.vOptStr u.dateOfBirth)
  , ("password", Value.vStr u.password)
  , ("hasBankAccount", Value.vBool u.hasBankAccount)
  , ("createdAt", Value.vNat u.createdAt)
  , ("updatedAt", Value.vNat u.updatedAt) ]

/-- The `select` clause shared by the GET and PATCH handlers in
`users/[userId]/route.ts`: every column except the password digest. -/
def selectPublic (u : User) : List (String × Value) :=
  [ ("id", Value.vStr u.id)
  , ("email", Value.vStr u.email)
  , ("firstName", Value.vStr u.firstName)
  , ("lastName", Value.vStr u.lastName)
  , ("phoneNumber", Value.vOptStr u.phoneNumber)
  , ("address", Value.vOptStr u.address)
  , ("dateOfBirth", Value.vOptStr u.dateOfBirth)
  , ("hasBankAccount", Value.vBool u.hasBankAccount)
  , ("createdAt", Value.vNat u.createdAt)
  , ("updatedAt", Value.vNat u.updatedAt) ]

/-- The rest-destructuring `const \x7b password: _, ...userWithoutPassword \x7d = user`
used by the register and login handlers: drop the `password` key. -/
def omitPassword (u : User) : List (String × Value) :=
  (userFields u).filter (fun p => p.fst ≠ "password")

/-- Body of an HTTP response produced by the handlers. -/
inductive Body where
  | error (msg : String)
  | user (fields : List (String × Value))
  | userToken (fields : List (String × Value)) (token : String)
  | message (msg : String)
deriving DecidableEq, Repr

/-- An HTTP response: status code and JSON body. -/
structure Response where
  status : Nat
  body : Body
deriving DecidableEq, Repr

/-- `createErrorResponse` from `src/lib/errors.ts`: `\x7b error: message \x7d`
with the given status. -/
def createErrorResponse (message : String) (statusCode : Nat) : Response :=
  { status := statusCode, body := Body.error message }

/-- `handleValidationError` from `src/lib/errors.ts`, applied to the issue
messages collected by a zod schema: joins them with `", "` and returns a
400 response whose error string is prefixed by `"Validation error: "`. -/
def handleValidationError (messages : List String) : Response :=
  createErrorResponse ("Validation error: " ++ String.intercalate ", " messages) 400

/-- A request-body field: absent from the JSON object, or present as a
string.  (The claims under study only exercise string-or-absent bodies;
non-string JSON values are likewise rejected by `z.string()`.) -/
inductive JField where
  | absent
  | str (s : String)
deriving DecidableEq, Repr

/-- A request body, as the set of keys any of the three schemas of
`src/lib/validations.ts` inspects (zod ignores unknown keys). -/
structure RawBody where
  email : JField
  firstName : JField
  lastName : JField
  phoneNumber : JField
  address : JField
  dateOfBirth : JField
  password : JField
deriving DecidableEq, Repr

/-- The request body with every key absent. -/
def emptyBody : RawBody :=
  { email := JField.absent, firstName := JField.absent, lastName := JField.absent
  , phoneNumber := JField.absent, address := JField.absent
  , dateOfBirth := JField.absent, password := JField.absent }

/-- An absent optional field maps to `none`, a present one to its string. -/
def fieldOpt : JField → Option String
  | JField.absent => none
  | JField.str s => some s

/-- zod issues of `z.string().email with message "Invalid email address"` on one field,
given the email regular-expression test `ev`. -/
def emailIssues (ev : String → Bool) : JField → List String
  | JField.absent => ["Required"]
  | JField.str s => if ev s then [] else ["Invalid email address"]

/-- zod issues of `z.string().min(1, msgMin).max(100)`: a required string
field of length between 1 and 100, all violated checks collected. -/
def nameIssues (msgMin : String) : JField → List String
  | JField.absent => ["Required"]
  | JField.str s =>
      (if s.length < 1 then [msgMin] else []) ++
      (if s.length > 100 then ["String must contain at most 100 character(s)"] else [])

/-- zod issues of `z.string().datetime().optional()` given the datetime
regular-expression test `dv`. -/
def dobIssues (dv : String → Bool) : JField → List String
  | JField.absent => []
  | JField.str s => if dv s then [] else ["Invalid datetime"]

/-- zod issues of `createUserSchema` (`src/lib/validations.ts`), in
schema-declaration order: email, firstName, lastName, phoneNumber,
address, dateOfBirth, password.  `phoneNumber` and `address` are
unconstrained optional strings and never contribute. -/
def createUserIssues (ev dv : String → Bool) (b : RawBody) : List String :=
  emailIssues ev b.email ++
  nameIssues "First name is required" b.firstName ++
  nameIssues "Last name is required" b.lastName ++
  dobIssues dv b.dateOfBirth ++
  (match b.password with
   | JField.absent => ["Required"]
   | JField.str s =>
       if s.length < 8 then ["Password must be at least 8 characters long"] else [])

/-- zod issues of `updateUserSchema`: every field optional; names, when
present, must have length between 1 and 100 (zod default messages);
dateOfBirth, when present, must pass the datetime test. -/
def updateUserIssues (dv : String → Bool) (b : RawBody) : List String :=
  (match b.firstName with
   | JField.absent => []
   | JField.str s =>
       (if s.length < 1 then ["String must contain at least 1 character(s)"] else []) ++
       (if s.length > 100 then ["String must contain at most 100 character(s)"] else [])) ++
  (match b.lastName with
   | JField.absent => []
   | JField.str s =>
       (if s.length < 1 then ["String must contain at least 1 character(s)"] else []) ++
       (if s.length > 100 then ["String must contain at most 100 character(s)"] else [])) ++
  dobIssues dv b.dateOfBirth

/-- zod issues of `loginSchema`: a pattern-valid email and a non-empty
password. -/
def loginIssues (ev : String → Bool) (b : RawBody) : List String :=
  emailIssues ev b.email ++
  (match b.password with
   | JField.absent => ["Required"]
   | JField.str s => if s.length < 1 then ["Password is required"] else [])

/-- The data extracted by a successful `createUserSchema.safeParse`. -/
structure CreateData where
  email : String
  firstName : String
  lastName : String
  phoneNumber : Option String
  address : Option String
  dateOfBirth : Option String
  password : String
deriving DecidableEq, Repr

/-- `createUserSchema.safeParse`: `some` of the typed data when no issue
is raised, `none` otherwise. -/
def createUserParse (ev dv : String → Bool) (b : RawBody) : Option CreateData :=
  if createUserIssues ev dv b = [] then
    match b.email, b.firstName, b.lastName, b.password with
    | JField.str e, JField.str f, JField.str l, JField.str p =>
        some { email := e, firstName := f, lastName := l
             , phoneNumber := fieldOpt b.phoneNumber
             , address := fieldOpt b.address
             , dateOfBirth := fieldOpt b.dateOfBirth
             , password := p }
    | _, _, _, _ => none
  else none

/-- The data extracted by a successful `updateUserSchema.safeParse`. -/
structure UpdateData where
  firstName : Option String
  lastName : Option String
  phoneNumber : Option String
  address : Option String
  dateOfBirth : Option String
deriving DecidableEq, Repr

/-- `updateUserSchema.safeParse`. -/
def updateUserParse (dv : String → Bool) (b : RawBody) : Option UpdateData :=
  if updateUserIssues dv b = [] then
    some { firstName := fieldOpt b.firstName
         , lastName := fieldOpt b.lastName
         , phoneNumber := fieldOpt b.phoneNumber
         , address := fieldOpt b.address
         , dateOfBirth := fieldOpt b.dateOfBirth }
  else none

/-- The data extracted by a successful `loginSchema.safeParse`. -/
structure LoginData where
  email : String
  password : String
deriving DecidableEq, Repr

/-- `loginSchema.safeParse`. -/
def loginParse (ev : String → Bool) (b : RawBody) : Option LoginData :=
  if loginIssues ev b = [] then
    match b.email, b.password with
    | JField.str e, JField.str p => some { email := e, password := p }
    | _, _ => none
  else none

/-- The claims of a verified JWT (`JWTPayload` in the auth library). -/
structure JWTPayload where
  userId : String
  email : String
deriving DecidableEq, Repr

/-- Modelled from the spec: `extractFromHeader` (`getTokenFromHeader` in the
auth library, whose source file is absent from the repository snapshot —
only its unit tests remain).  Given a raw `Authorization` header it returns
the substring after a literal case-sensitive `"Bearer "` prefix, and `null`
when the header is null, empty, or lacks that exact prefix. -/
def getTokenFromHeader : Option String → Option String
  | none => none
  | some h =>
      if h = "" then none
      else if "Bearer ".data.isPrefixOf h.data then some (h.drop 7)
      else none

/-- Result of the shared guard `authenticateAndAuthorize` in
`users/[userId]/route.ts`: an error response, or the authenticated
user id. -/
def authenticateAndAuthorize (verify : String → Option JWTPayload)
    (authHeader : Option String) (userId : String) : Except Response String :=
  match getTokenFromHeader authHeader with
  | none => Except.error (createErrorResponse "Authorization token required" 401)
  | some token =>
      -- `if (!token)` in the source: the empty string is falsy in JS,
      -- so an empty extracted token is rejected before verification.
      if token = "" then
        Except.error (createErrorResponse "Authorization token required" 401)
      else
        match verify token with
        | none => Except.error (createErrorResponse "Invalid or expired token" 401)
        | some payload =>
            if payload.userId ≠ userId then
              Except.error
                (createErrorResponse "Forbidden: You can only access your own data" 403)
            else Except.ok payload.userId

/-- `findUnique(\x7b where: \x7b id \x7d \x7d)` against the store. -/
def findById (store : List User) (userId : String) : Option User :=
  store.find? (fun u => u.id = userId)

/-- `findUnique(\x7b where: \x7b email \x7d \x7d)` against the store. -/
def findByEmail (store : List User) (email : String) : Option User :=
  store.find? (fun u => u.email = email)

/-- The GET handler of `users/[userId]/route.ts`: guard, then look the user
up with the password-less `select`, 404 when absent. -/
def usersIdGET (verify : String → Option JWTPayload) (store : List User)
    (authHeader : Option String) (userId : String) : Response :=
  match authenticateAndAuthorize verify authHeader userId with
  | Except.error r => r
  | Except.ok _ =>
      match findById store userId with
      | none => createErrorResponse "User not found" 404
      | some u => { status := 200, body := Body.user (selectPublic u) }

/-- The `data` object of the PATCH handler `db.user.update` call: each
field is written only when its spread condition holds.  `firstName`,
`lastName` and `dateOfBirth` use JS truthiness (`firstName && ...`), so an
empty string would also be skipped; `phoneNumber` and `address` use an
explicit `!== undefined` presence check. -/
def applyUpdate (u : User) (d : UpdateData) : User :=
  { u with
    firstName := match d.firstName with
                 | some s => if s ≠ "" then s else u.firstName
                 | none => u.firstName
  , lastName := match d.lastName with
                | some s => if s ≠ "" then s else u.lastName
                | none => u.lastName
  , phoneNumber := match d.phoneNumber with
                   | some s => some s
                   | none => u.phoneNumber
  , address := match d.address with
               | some s => some s
               | none => u.address
  , dateOfBirth := match d.dateOfBirth with
                   | some s => if s ≠ "" then some s else u.dateOfBirth
                   | none => u.dateOfBirth }

/-- `db.user.update(\x7b where: \x7b id \x7d, data \x7d)` against the store: replace the
row with the matching id. -/
def updateStore (store : List User) (userId : String) (u' : User) : List User :=
  store.map (fun v => if v.id = userId then u' else v)

/-- The PATCH handler of `users/[userId]/route.ts`: guard, parse body with
`updateUserSchema` (400 on failure), look the user up (404 when absent),
apply only the provided fields, persist, and answer with the password-less
`select` of the updated row.  Returns the response and the store after the
request. -/
def usersIdPATCH (verify : String → Option JWTPayload) (dv : String → Bool)
    (store : List User) (authHeader : Option String) (userId : String)
    (b : RawBody) : Response × List User :=
  match authenticateAndAuthorize verify authHeader userId with
  | Except.error r => (r, store)
  | Except.ok _ =>
      match updateUserParse dv b with
      | none => (handleValidationError (updateUserIssues dv b), store)
      | some d =>
          match findById store userId with
          | none => (createErrorResponse "User not found" 404, store)
          | some u =>
              let u' := applyUpdate u d
              ({ status := 200, body := Body.user (selectPublic u') },
               updateStore store userId u')

/-- The DELETE handler of `users/[userId]/route.ts`: guard, look the user
up (404 when absent), refuse with 409 when `hasBankAccount` is set, else
delete the row and answer with a success message.  Returns the response
and the store after the request. -/
def usersIdDELETE (verify : String → Option JWTPayload) (store : List User)
    (authHeader : Option String) (userId : String) : Response × List User :=
  match authenticateAndAuthorize verify authHeader userId with
  | Except.error r => (r, store)
  | Except.ok _ =>
      match findById store userId with
      | none => (createErrorResponse "User not found" 404, store)
      | some u =>
          if u.hasBankAccount then
            (createErrorResponse "Cannot delete user with an active bank account" 409,
             store)
          else
            ({ status := 200, body := Body.message "User deleted successfully" },
             store.filter (fun v => v.id ≠ userId))

/-- The register handler (`POST` of `users/route.ts`): parse body with
`createUserSchema` (400 on failure), refuse duplicate emails with 400,
hash the password with `hash`, create the row (`hasBankAccount` false,
server-assigned id `newId` and timestamps `now`), issue a token for
`\x7buserId, email\x7d`, and answer 201 with the password-stripped user and the
token.  Returns the response and the store after the request. -/
def usersPOST (ev dv : String → Bool) (hash : String → String)
    (issue : JWTPayload → String) (newId : String) (now : Nat)
    (store : List User) (b : RawBody) : Response × List User :=
  match createUserParse ev dv b with
  | none => (handleValidationError (createUserIssues ev dv b), store)
  | some d =>
      match findByEmail store d.email with
      | some _ => (createErrorResponse "User with this email already exists" 400, store)
      | none =>
          let u : User :=
            { id := newId, email := d.email, firstName := d.firstName
            , lastName := d.lastName, phoneNumber := d.phoneNumber
            , address := d.address, dateOfBirth := d.dateOfBirth
            , password := hash d.password, hasBankAccount := false
            , createdAt := now, updatedAt := now }
          ({ status := 201
           , body := Body.userToken (omitPassword u)
               (issue { userId := u.id, email := u.email }) },
           store ++ [u])

/-- The login handler (`POST` of `auth/login/route.ts`): parse body with
`loginSchema` (400 on failure), look the user up by email (401 when
absent), verify the password with `compare` (401 on mismatch), issue a
token, and answer 200 with the password-stripped user and the token. -/
def loginPOST (ev : String → Bool) (compare : String → String → Bool)
    (issue : JWTPayload → String) (store : List User) (b : RawBody) : Response :=
  match loginParse ev b with
  | none => handleValidationError (loginIssues ev b)
  | some d =>
      match findByEmail store d.email with
      | none => createErrorResponse "Invalid email or password" 401
      | some u =>
          if compare d.password u.password then
            { status := 200
            , body := Body.userToken (omitPassword u)
                (issue { userId := u.id, email := u.email }) }
          else createErrorResponse "Invalid email or password" 401

/-! Concrete fixtures used by witness and counterexample theorems. -/

/-- A token verifier accepting exactly the token `"tok-A"` as user `A`. -/
def demoVerify : String → Option JWTPayload :=
  fun t => if t = "tok-A" then some { userId := "A", email := "a@example.com" } else none

/-- A regular-expression test accepting every string. -/
def acceptAll : String → Bool := fun _ => true

/-- A bcrypt comparison that never matches. -/
def denyCompare : String → String → Bool := fun _ _ => false

/-- A token issuer returning a fixed token. -/
def constToken : JWTPayload → String := fun _ => "issued-token"

/-- A password hasher fixture. -/
def demoHash : String → String := fun s => "digest-of-" ++ s

/-- A stored user `A` whose linked-account flag is set. -/
def demoUser : User :=
  { id := "A", email := "a@example.com", firstName := "Ann", lastName := "Lee"
  , phoneNumber := none, address := none, dateOfBirth := none
  , password := "digest", hasBankAccount := true, createdAt := 1, updatedAt := 1 }

/-- A stored user `A` whose linked-account flag is clear. -/
def demoUserFree : User :=
  { demoUser with hasBankAccount := false }

/-- A login request body for user `A`. -/
def loginBodyDemo : RawBody :=
  { emptyBody with email := JField.str "a@example.com", password := JField.str "pw" }

/-- A body whose `firstName` is the empty string: rejected by both the
create and the update schema, and its email key is missing, so the login
schema rejects it as well. -/
def badBody : RawBody :=
  { emptyBody with firstName := JField.str "" }

/-- A registration body reusing the stored email of user `A`. -/
def regBody : RawBody :=
  { emptyBody with
    email := JField.str "a@example.com",
    firstName := JField.str "Ann",
    lastName := JField.str "Lee",
    password := JField.str "longenough" }

/-- The parsed form of `regBody`. -/
def regData : CreateData :=
  { email := "a@example.com", firstName := "Ann", lastName := "Lee"
  , phoneNumber := none, address := none, dateOfBirth := none
  , password := "longenough" }

/-- The parsed form of the empty update body: nothing to change. -/
def noUpdate : UpdateData :=
  { firstName := none, lastName := none, phoneNumber := none
  , address := none, dateOfBirth := none }

/-- `true` exactly when a response body carries a serialized user object
with a `password` key. -/
def bodyHasPasswordField : Body → Bool
  | Body.error _ => false
  | Body.user fields => fields.any (fun p => p.fst = "password")
  | Body.userToken fields _ => fields.any (fun p => p.fst = "password")
  | Body.message _ => false

/-! Helper lemmas shared by the claim theorems. -/

theorem getTokenFromHeader_bearer_append (t : String) :
    getTokenFromHeader (some ("Bearer " ++ t)) = some t := by
  have hne : "Bearer " ++ t ≠ "" := by
    intro h
    have := congrArg String.data h
    simp [String.data_append] at this
  have hpre : "Bearer ".data.isPrefixOf ("Bearer " ++ t).data = true := by
    rw [String.data_append, List.isPrefixOf_iff_prefix]
    exact List.prefix_append _ _
  have hdrop : ("Bearer " ++ t).drop 7 = t := by
    rw [String.drop_eq, String.data_append]
    have h7 : ("Bearer ".data).length = 7 := by decide
    rw [← h7, List.drop_left]
  simp [getTokenFromHeader, hne, hpre, hdrop]

theorem selectPublic_no_password (u : User) :
    (selectPublic u).any (fun p => p.fst = "password") = false := by
  simp [selectPublic]

theorem omitPassword_no_password (u : User) :
    (omitPassword u).any (fun p => p.fst = "password") = false := by
  simp [omitPassword, userFields]

theorem guard_forbidden (verify : String → Option JWTPayload)
    (authHeader : Option String) (userId : String) (t : String) (p : JWTPayload)
    (htok : getTokenFromHeader authHeader = some t) (hne : t ≠ "")
    (hver : verify t = some p) (hmis : p.userId ≠ userId) :
    authenticateAndAuthorize verify authHeader userId
      = Except.error (createErrorResponse "Forbidden: You can only access your own data" 403) := by
  simp [authenticateAndAuthorize, htok, hne, hver, hmis]

/-! Claim theorems. -/

/-- C1: on each of GET, PATCH and DELETE `/users/\x7buserId\x7d`, when the bearer
token extracted from the header verifies to claims whose `userId` differs
from the target id in the path, the response is 403 with error
"Forbidden: You can only access your own data", for every store (whether
or not the target user exists) and, for PATCH, every request body; the
store is left unchanged. -/
theorem c1_cross_user_access_forbidden
    (verify : String → Option JWTPayload) (dv : String → Bool)
    (store : List User) (authHeader : Option String) (userId : String)
    (b : RawBody) (t : String) (p : JWTPayload)
    (htok : getTokenFromHeader authHeader = some t) (hne : t ≠ "")
    (hver : verify t = some p) (hmis : p.userId ≠ userId) :
    usersIdGET verify store authHeader userId
      = createErrorResponse "Forbidden: You can only access your own data" 403 ∧
    usersIdPATCH verify dv store authHeader userId b
      = (createErrorResponse "Forbidden: You can only access your own data" 403, store) ∧
    usersIdDELETE verify store authHeader userId
      = (createErrorResponse "Forbidden: You can only access your own data" 403, store) := by
  have hg := guard_forbidden verify authHeader userId t p htok hne hver hmis
  refine ⟨?_, ?_, ?_⟩ <;> simp [usersIdGET, usersIdPATCH, usersIdDELETE, hg]

/-- C1 witness: a token verifying to user `A` presented on `/users/B`
is rejected with 403 on all three methods. -/
theorem c1_witness :
    usersIdGET demoVerify [] (some "Bearer tok-A") "B"
      = createErrorResponse "Forbidden: You can only access your own data" 403 ∧
    usersIdPATCH demoVerify acceptAll [] (some "Bearer tok-A") "B" emptyBody
      = (createErrorResponse "Forbidden: You can only access your own data" 403, []) ∧
    usersIdDELETE demoVerify [] (some "Bearer tok-A") "B"
      = (createErrorResponse "Forbidden: You can only access your own data" 403, []) :=
  c1_cross_user_access_forbidden demoVerify acceptAll [] (some "Bearer tok-A") "B"
    emptyBody "tok-A" { userId := "A", email := "a@example.com" }
    (by decide) (by decide) (by decide) (by decide)

/-- C7: the token extractor is a pure function mapping `null` to `null`,
the empty header to `null`, `"Bearer " ++ t` to `t` for every string `t`,
any header lacking the literal `"Bearer "` prefix to `null`, and in
particular `"Bearer abc"` to `"abc"`, `"abc"` to `null`, and `"Bearer "`
to the empty string. -/
theorem c7_extractFromHeader_spec (h t : String)
    (hno : "Bearer ".data.isPrefixOf h.data = false) :
    getTokenFromHeader none = none ∧
    getTokenFromHeader (some "") = none ∧
    getTokenFromHeader (some ("Bearer " ++ t)) = some t ∧
    getTokenFromHeader (some h) = none ∧
    getTokenFromHeader (some "Bearer abc") = some "abc" ∧
    getTokenFromHeader (some "abc") = none ∧
    getTokenFromHeader (some "Bearer ") = some "" := by
  refine ⟨by decide, by decide, getTokenFromHeader_bearer_append t, ?_,
    by decide, by decide, by decide⟩
  by_cases he : h = ""
  · simp [getTokenFromHeader, he]
  · simp [getTokenFromHeader, he, hno]

/-- C7 witness: the specification instantiated at the prefix-less header
`"abc"` and the token `"xyz"`. -/
theorem c7_witness :
    getTokenFromHeader none = none ∧
    getTokenFromHeader (some "") = none ∧
    getTokenFromHeader (some ("Bearer " ++ "xyz")) = some "xyz" ∧
    getTokenFromHeader (some "abc") = none ∧
    getTokenFromHeader (some "Bearer abc") = some "abc" ∧
    getTokenFromHeader (some "abc") = none ∧
    getTokenFromHeader (some "Bearer ") = some "" :=
  c7_extractFromHeader_spec "abc" "xyz" (by decide)

/-- C10: a request whose Authorization header is exactly `"Bearer "`
extracts the empty-string token, and each guarded handler answers 401
"Authorization token required" — the absent-token message, not the
invalid-token message — for every verifier, so token verification can
never influence the outcome; the store is unchanged. -/
theorem c10_empty_token_like_absent
    (verify : String → Option JWTPayload) (dv : String → Bool)
    (store : List User) (userId : String) (b : RawBody) :
    getTokenFromHeader (some "Bearer ") = some "" ∧
    usersIdGET verify store (some "Bearer ") userId
      = createErrorResponse "Authorization token required" 401 ∧
    usersIdPATCH verify dv store (some "Bearer ") userId b
      = (createErrorResponse "Authorization token required" 401, store) ∧
    usersIdDELETE verify store (some "Bearer ") userId
      = (createErrorResponse "Authorization token required" 401, store) ∧
    createErrorResponse "Authorization token required" 401
      ≠ createErrorResponse "Invalid or expired token" 401 := by
  have htok : getTokenFromHeader (some "Bearer ") = some "" := by decide
  have hg : authenticateAndAuthorize verify (some "Bearer ") userId
      = Except.error (createErrorResponse "Authorization token required" 401) := by
    simp [authenticateAndAuthorize, htok]
  refine ⟨htok, ?_, ?_, ?_, by decide⟩ <;>
    simp [usersIdGET, usersIdPATCH, usersIdDELETE, hg]

/-- C2: for every login body accepted by the login schema, the run where
no stored user has the given email and the run where the user exists but
password comparison fails produce the very same response: 401 with error
"Invalid email or password"; in particular the two runs are
indistinguishable to the client. -/
theorem c2_login_no_account_enumeration
    (ev : String → Bool) (cmp : String → String → Bool) (issue : JWTPayload → String)
    (storeA storeB : List User) (b : RawBody) (d : LoginData) (u : User)
    (hparse : loginParse ev b = some d)
    (hA : findByEmail storeA d.email = none)
    (hB : findByEmail storeB d.email = some u)
    (hcmp : cmp d.password u.password = false) :
    loginPOST ev cmp issue storeA b = createErrorResponse "Invalid email or password" 401 ∧
    loginPOST ev cmp issue storeB b = createErrorResponse "Invalid email or password" 401 ∧
    loginPOST ev cmp issue storeA b = loginPOST ev cmp issue storeB b := by
  have h1 : loginPOST ev cmp issue storeA b
      = createErrorResponse "Invalid email or password" 401 := by
    simp [loginPOST, hparse, hA]
  have h2 : loginPOST ev cmp issue storeB b
      = createErrorResponse "Invalid email or password" 401 := by
    simp [loginPOST, hparse, hB, hcmp]
  exact ⟨h1, h2, h1.trans h2.symm⟩

/-- C2 witness: unknown email on the empty store and wrong password
against the stored user `A` both answer the identical 401 response. -/
theorem c2_witness :
    loginPOST acceptAll denyCompare constToken [] loginBodyDemo
      = createErrorResponse "Invalid email or password" 401 ∧
    loginPOST acceptAll denyCompare constToken [demoUser] loginBodyDemo
      = createErrorResponse "Invalid email or password" 401 ∧
    loginPOST acceptAll denyCompare constToken [] loginBodyDemo
      = loginPOST acceptAll denyCompare constToken [demoUser] loginBodyDemo :=
  c2_login_no_account_enumeration acceptAll denyCompare constToken [] [demoUser]
    loginBodyDemo { email := "a@example.com", password := "pw" } demoUser
    (by decide) (by decide) (by decide) (by decide)

/-- C3: no response of the register, login, get-by-id or update handler
ever carries a user object containing the `password` digest key — in
particular none of their success responses does. -/
theorem c3_no_password_digest_in_responses
    (ev dv : String → Bool) (hash : String → String) (issue : JWTPayload → String)
    (cmp : String → String → Bool) (verify : String → Option JWTPayload)
    (newId : String) (now : Nat) (store : List User)
    (authHeader : Option String) (userId : String) (b : RawBody) :
    bodyHasPasswordField (usersPOST ev dv hash issue newId now store b).1.body = false ∧
    bodyHasPasswordField (loginPOST ev cmp issue store b).body = false ∧
    bodyHasPasswordField (usersIdGET verify store authHeader userId).body = false ∧
    bodyHasPasswordField (usersIdPATCH verify dv store authHeader userId b).1.body = false := by
  have herr : ∀ r : Response, ∀ he : authenticateAndAuthorize verify authHeader userId
      = Except.error r, bodyHasPasswordField r.body = false := by
    intro r he
    unfold authenticateAndAuthorize at he
    repeat' split at he
    all_goals first
      | (simp only [Except.error.injEq] at he; subst he; decide)
      | simp at he
  refine ⟨?_, ?_, ?_, ?_⟩
  · rcases hp : createUserParse ev dv b with _ | d
    · simp [usersPOST, hp, bodyHasPasswordField, handleValidationError,
        createErrorResponse]
    · rcases hf : findByEmail store d.email with _ | u
      · simp [usersPOST, hp, hf, bodyHasPasswordField, omitPassword_no_password]
      · simp [usersPOST, hp, hf, bodyHasPasswordField, createErrorResponse]
  · rcases hp : loginParse ev b with _ | d
    · simp [loginPOST, hp, bodyHasPasswordField, handleValidationError,
        createErrorResponse]
    · rcases hf : findByEmail store d.email with _ | u
      · simp [loginPOST, hp, hf, bodyHasPasswordField, createErrorResponse]
      · by_cases hc : cmp d.password u.password
        · simp [loginPOST, hp, hf, hc, bodyHasPasswordField, omitPassword_no_password]
        · simp [loginPOST, hp, hf, hc, bodyHasPasswordField, createErrorResponse]
  · rcases ha : authenticateAndAuthorize verify authHeader userId with r | pid
    · simpa [usersIdGET, ha] using herr r ha
    · rcases hf : findById store userId with _ | u
      · simp [usersIdGET, ha, hf, bodyHasPasswordField, createErrorResponse]
      · simp [usersIdGET, ha, hf, bodyHasPasswordField, selectPublic_no_password]
  · rcases ha : authenticateAndAuthorize verify authHeader userId with r | pid
    · simpa [usersIdPATCH, ha] using herr r ha
    · rcases hp : updateUserParse dv b with _ | d
      · simp [usersIdPATCH, ha, hp, bodyHasPasswordField, handleValidationError,
          createErrorResponse]
      · rcases hf : findById store userId with _ | u
        · simp [usersIdPATCH, ha, hp, hf, bodyHasPasswordField, createErrorResponse]
        · simp [usersIdPATCH, ha, hp, hf, bodyHasPasswordField, selectPublic_no_password]

/-- C5: a registration body accepted by the create schema whose email is
already present in the store is refused with 400
"User with this email already exists", and the store is unchanged, so
email uniqueness is preserved. -/
theorem c5_duplicate_email_rejected
    (ev dv : String → Bool) (hash : String → String) (issue : JWTPayload → String)
    (newId : String) (now : Nat) (store : List User) (b : RawBody)
    (d : CreateData) (u : User)
    (hparse : createUserParse ev dv b = some d)
    (hdup : findByEmail store d.email = some u) :
    usersPOST ev dv hash issue newId now store b
      = (createErrorResponse "User with this email already exists" 400, store) := by
  simp [usersPOST, hparse, hdup]

/-- C5 witness: registering the already-stored email of user `A` is
refused and creates nothing. -/
theorem c5_witness :
    usersPOST acceptAll acceptAll demoHash constToken "new-id" 2 [demoUser] regBody
      = (createErrorResponse "User with this email already exists" 400, [demoUser]) :=
  c5_duplicate_email_rejected acceptAll acceptAll demoHash constToken "new-id" 2
    [demoUser] regBody regData demoUser (by decide) (by decide)

/-- C4: a DELETE request that passes the guard and whose target exists
with the linked-account flag set is refused with 409
"Cannot delete user with an active bank account" and leaves the store
unchanged; moreover, in any DELETE run over a store with unique ids, a
stored user whose flag is set is still stored afterwards. -/
theorem c4_delete_bank_account_conflict
    (verify : String → Option JWTPayload) (store : List User)
    (authHeader : Option String) (userId pid : String) (u : User)
    (verify2 : String → Option JWTPayload) (store2 : List User)
    (authHeader2 : Option String) (userId2 : String) (v : User)
    (hauth : authenticateAndAuthorize verify authHeader userId = Except.ok pid)
    (hfind : findById store userId = some u)
    (hflag : u.hasBankAccount = true)
    (huniq : ∀ w w', w ∈ store2 → w' ∈ store2 → w.id = w'.id → w = w')
    (hv : v ∈ store2) (hvflag : v.hasBankAccount = true) :
    usersIdDELETE verify store authHeader userId
      = (createErrorResponse "Cannot delete user with an active bank account" 409, store) ∧
    v ∈ (usersIdDELETE verify2 store2 authHeader2 userId2).2 := by
  constructor
  · simp [usersIdDELETE, hauth, hfind, hflag]
  · rcases ha : authenticateAndAuthorize verify2 authHeader2 userId2 with r | pid2
    · simpa [usersIdDELETE, ha] using hv
    · rcases hf : findById store2 userId2 with _ | w
      · simpa [usersIdDELETE, ha, hf] using hv
      · by_cases hw : w.hasBankAccount
        · simpa [usersIdDELETE, ha, hf, hw] using hv
        · have hwmem : w ∈ store2 := List.mem_of_find?_eq_some hf
          have hwid : w.id = userId2 := by
            have := List.find?_some hf
            simpa using this
          have hvid : v.id ≠ userId2 := by
            intro hvid
            have hveq : v = w := huniq v w hv hwmem (hvid.trans hwid.symm)
            rw [hveq] at hvflag
            exact hw hvflag
          simp [usersIdDELETE, ha, hf, hw, List.mem_filter, hv, hvid]

/-- C4 witness: deleting the flagged user `A` with a valid own token
answers 409 and user `A` remains stored. -/
theorem c4_witness :
    usersIdDELETE demoVerify [demoUser] (some "Bearer tok-A") "A"
      = (createErrorResponse "Cannot delete user with an active bank account" 409, [demoUser]) ∧
    demoUser ∈ (usersIdDELETE demoVerify [demoUser] (some "Bearer tok-A") "A").2 :=
  c4_delete_bank_account_conflict demoVerify [demoUser] (some "Bearer tok-A") "A" "A"
    demoUser demoVerify [demoUser] (some "Bearer tok-A") "A" demoUser
    (by rfl) (by decide) (by decide)
    (by
      intro w w' hw hw' _
      rw [List.mem_singleton] at hw hw'
      rw [hw, hw'])
    (by simp) (by decide)

/-- C6: a PATCH request that passes the guard and the update schema and
whose target exists answers 200 with the updated record; every field
absent from the body keeps its stored value, the non-updatable columns
(id, email, password digest, bank-account flag, creation time) are always
kept, and the empty body changes nothing at all, store included. -/
theorem c6_update_only_provided_fields
    (verify : String → Option JWTPayload) (dv : String → Bool)
    (store : List User) (authHeader : Option String) (userId pid : String)
    (b : RawBody) (d : UpdateData) (u : User)
    (hauth : authenticateAndAuthorize verify authHeader userId = Except.ok pid)
    (hparse : updateUserParse dv b = some d)
    (hfind : findById store userId = some u)
    (huniq : ∀ w w', w ∈ store → w' ∈ store → w.id = w'.id → w = w') :
    (usersIdPATCH verify dv store authHeader userId b).1
      = { status := 200, body := Body.user (selectPublic (applyUpdate u d)) } ∧
    (usersIdPATCH verify dv store authHeader userId b).2
      = updateStore store userId (applyUpdate u d) ∧
    (b.firstName = JField.absent → (applyUpdate u d).firstName = u.firstName) ∧
    (b.lastName = JField.absent → (applyUpdate u d).lastName = u.lastName) ∧
    (b.phoneNumber = JField.absent → (applyUpdate u d).phoneNumber = u.phoneNumber) ∧
    (b.address = JField.absent → (applyUpdate u d).address = u.address) ∧
    (b.dateOfBirth = JField.absent → (applyUpdate u d).dateOfBirth = u.dateOfBirth) ∧
    (applyUpdate u d).id = u.id ∧
    (applyUpdate u d).email = u.email ∧
    (applyUpdate u d).password = u.password ∧
    (applyUpdate u d).hasBankAccount = u.hasBankAccount ∧
    (applyUpdate u d).createdAt = u.createdAt ∧
    (applyUpdate u d).updatedAt = u.updatedAt ∧
    (b = emptyBody →
      applyUpdate u d = u ∧
      (usersIdPATCH verify dv store authHeader userId b).2 = store) := by
  have hd : d = { firstName := fieldOpt b.firstName, lastName := fieldOpt b.lastName
                , phoneNumber := fieldOpt b.phoneNumber, address := fieldOpt b.address
                , dateOfBirth := fieldOpt b.dateOfBirth } := by
    unfold updateUserParse at hparse
    split at hparse
    · injection hparse with h
      exact h.symm
    · exact absurd hparse (by simp)
  have hresp : (usersIdPATCH verify dv store authHeader userId b).1
      = { status := 200, body := Body.user (selectPublic (applyUpdate u d)) } := by
    simp [usersIdPATCH, hauth, hparse, hfind]
  have hstore : (usersIdPATCH verify dv store authHeader userId b).2
      = updateStore store userId (applyUpdate u d) := by
    simp [usersIdPATCH, hauth, hparse, hfind]
  refine ⟨hresp, hstore, ?_, ?_, ?_, ?_, ?_, ?_, ?_, ?_, ?_, ?_, ?_, ?_⟩
  · intro h; rw [hd]; simp [applyUpdate, fieldOpt, h]
  · intro h; rw [hd]; simp [applyUpdate, fieldOpt, h]
  · intro h; rw [hd]; simp [applyUpdate, fieldOpt, h]
  · intro h; rw [hd]; simp [applyUpdate, fieldOpt, h]
  · intro h; rw [hd]; simp [applyUpdate, fieldOpt, h]
  · rfl
  · rfl
  · rfl
  · rfl
  · rfl
  · rfl
  · intro hb
    have hub : applyUpdate u d = u := by
      rw [hd, hb]
      simp [applyUpdate, emptyBody, fieldOpt]
    refine ⟨hub, ?_⟩
    rw [hstore, hub, updateStore]
    have hid : u.id = userId := by
      have := List.find?_some hfind
      simpa using this
    have humem : u ∈ store := List.mem_of_find?_eq_some hfind
    have hmap : ∀ v ∈ store, (if v.id = userId then u else v) = v := by
      intro v hvmem
      by_cases hvid : v.id = userId
      · rw [if_pos hvid]
        exact (huniq v u hvmem humem (hvid.trans hid.symm)).symm
      · rw [if_neg hvid]
    calc store.map (fun v => if v.id = userId then u else v)
        = store.map id := List.map_congr_left hmap
      _ = store := List.map_id store

/-- C6 witness: the empty-body PATCH on the stored user `A` answers 200
and leaves the user and the store exactly as they were. -/
theorem c6_witness :
    (usersIdPATCH demoVerify acceptAll [demoUser] (some "Bearer tok-A") "A" emptyBody).1
      = { status := 200, body := Body.user (selectPublic (applyUpdate demoUser noUpdate)) } ∧
    (usersIdPATCH demoVerify acceptAll [demoUser] (some "Bearer tok-A") "A" emptyBody).2
      = updateStore [demoUser] "A" (applyUpdate demoUser noUpdate) ∧
    (emptyBody.firstName = JField.absent →
      (applyUpdate demoUser noUpdate).firstName = demoUser.firstName) ∧
    (emptyBody.lastName = JField.absent →
      (applyUpdate demoUser noUpdate).lastName = demoUser.lastName) ∧
    (emptyBody.phoneNumber = JField.absent →
      (applyUpdate demoUser noUpdate).phoneNumber = demoUser.phoneNumber) ∧
    (emptyBody.address = JField.absent →
      (applyUpdate demoUser noUpdate).address = demoUser.address) ∧
    (emptyBody.dateOfBirth = JField.absent →
      (applyUpdate demoUser noUpdate).dateOfBirth = demoUser.dateOfBirth) ∧
    (applyUpdate demoUser noUpdate).id = demoUser.id ∧
    (applyUpdate demoUser noUpdate).email = demoUser.email ∧
    (applyUpdate demoUser noUpdate).password = demoUser.password ∧
    (applyUpdate demoUser noUpdate).hasBankAccount = demoUser.hasBankAccount ∧
    (applyUpdate demoUser noUpdate).createdAt = demoUser.createdAt ∧
    (applyUpdate demoUser noUpdate).updatedAt = demoUser.updatedAt ∧
    (emptyBody = emptyBody →
      applyUpdate demoUser noUpdate = demoUser ∧
      (usersIdPATCH demoVerify acceptAll [demoUser] (some "Bearer tok-A") "A" emptyBody).2
        = [demoUser]) :=
  c6_update_only_provided_fields demoVerify acceptAll [demoUser] (some "Bearer tok-A")
    "A" "A" emptyBody noUpdate demoUser (by rfl) (by decide) (by decide)
    (by
      intro w w' hw hw' _
      rw [List.mem_singleton] at hw hw'
      rw [hw, hw'])

theorem createUserParse_eq_none (ev dv : String → Bool) (b : RawBody)
    (h : createUserIssues ev dv b ≠ []) : createUserParse ev dv b = none := by
  simp [createUserParse, h]

theorem loginParse_eq_none (ev : String → Bool) (b : RawBody)
    (h : loginIssues ev b ≠ []) : loginParse ev b = none := by
  simp [loginParse, h]

theorem updateUserParse_eq_none (dv : String → Bool) (b : RawBody)
    (h : updateUserIssues dv b ≠ []) : updateUserParse dv b = none := by
  simp [updateUserParse, h]

/-- C8 counterexample: a PATCH whose guard passes, whose target does not
exist in the (empty) store, and whose body fails the update schema is
answered with the 400 validation error, not with 404 as the claim
states — the handler validates before it looks the target up. -/
theorem c8_counterexample :
    authenticateAndAuthorize demoVerify (some "Bearer tok-A") "A" = Except.ok "A" ∧
    findById [] "A" = none ∧
    updateUserParse acceptAll badBody = none ∧
    (usersIdPATCH demoVerify acceptAll [] (some "Bearer tok-A") "A" badBody).1.status = 400 ∧
    (usersIdPATCH demoVerify acceptAll [] (some "Bearer tok-A") "A" badBody).1
      ≠ createErrorResponse "User not found" 404 := by
  refine ⟨by rfl, by decide, by decide, by decide, by decide⟩

/-- C8 amended: after the guard succeeds the Update handler runs the
update schema first, so every PATCH request whose body fails the schema
is answered with the 400 validation error — whatever the store holds, in
particular when the target user does not exist. -/
theorem c8_validation_runs_before_lookup
    (verify : String → Option JWTPayload) (dv : String → Bool)
    (store : List User) (authHeader : Option String) (userId pid : String)
    (b : RawBody)
    (hauth : authenticateAndAuthorize verify authHeader userId = Except.ok pid)
    (hfail : updateUserIssues dv b ≠ []) :
    usersIdPATCH verify dv store authHeader userId b
      = (handleValidationError (updateUserIssues dv b), store) ∧
    (usersIdPATCH verify dv store authHeader userId b).1.status = 400 := by
  have hp := updateUserParse_eq_none dv b hfail
  have h1 : usersIdPATCH verify dv store authHeader userId b
      = (handleValidationError (updateUserIssues dv b), store) := by
    simp [usersIdPATCH, hauth, hp]
  exact ⟨h1, by rw [h1]; rfl⟩

/-- C8 witness: the amended ordering at a concrete request with an absent
target and an invalid body. -/
theorem c8_witness :
    usersIdPATCH demoVerify acceptAll [] (some "Bearer tok-A") "A" badBody
      = (handleValidationError (updateUserIssues acceptAll badBody), []) ∧
    (usersIdPATCH demoVerify acceptAll [] (some "Bearer tok-A") "A" badBody).1.status
      = 400 :=
  c8_validation_runs_before_lookup demoVerify acceptAll [] (some "Bearer tok-A")
    "A" "A" badBody (by rfl) (by decide)

/-- C9 counterexample: at the all-absent registration body the handler
answers 400, but the error string is not the bare joined per-field
messages: `handleValidationError` prefixes them with
"Validation error: ". -/
theorem c9_counterexample :
    createUserIssues acceptAll acceptAll emptyBody ≠ [] ∧
    (usersPOST acceptAll acceptAll demoHash constToken "new-id" 2 [] emptyBody).1.status
      = 400 ∧
    (usersPOST acceptAll acceptAll demoHash constToken "new-id" 2 [] emptyBody).1.body
      ≠ Body.error
          (String.intercalate ", " (createUserIssues acceptAll acceptAll emptyBody)) := by
  refine ⟨by decide, by decide, by decide⟩

/-- C9 amended: validation is eager — the issue list of the create schema
is the concatenation of the per-field issue lists in declaration order —
and every body rejected by a schema is answered by its handler with 400
whose error string is "Validation error: " followed by the ordered
per-field messages joined with ", ": independently, for the register
handler whenever the create schema rejects the body, for the login
handler whenever the login schema rejects it, and for the update handler
whenever the guard succeeds and the update schema rejects it. -/
theorem c9_validation_error_string
    (ev dv : String → Bool) (hash : String → String) (issue : JWTPayload → String)
    (cmp : String → String → Bool) (verify : String → Option JWTPayload)
    (newId : String) (now : Nat) (store : List User)
    (authHeader : Option String) (userId pid : String) (b : RawBody) :
    (createUserIssues ev dv b ≠ [] →
      usersPOST ev dv hash issue newId now store b
        = (createErrorResponse
            ("Validation error: " ++ String.intercalate ", " (createUserIssues ev dv b))
            400, store)) ∧
    (loginIssues ev b ≠ [] →
      loginPOST ev cmp issue store b
        = createErrorResponse
            ("Validation error: " ++ String.intercalate ", " (loginIssues ev b)) 400) ∧
    (authenticateAndAuthorize verify authHeader userId = Except.ok pid →
      updateUserIssues dv b ≠ [] →
      usersIdPATCH verify dv store authHeader userId b
        = (createErrorResponse
            ("Validation error: " ++ String.intercalate ", " (updateUserIssues dv b))
            400, store)) ∧
    createUserIssues ev dv b
      = emailIssues ev b.email ++
        nameIssues "First name is required" b.firstName ++
        nameIssues "Last name is required" b.lastName ++
        dobIssues dv b.dateOfBirth ++
        (match b.password with
         | JField.absent => ["Required"]
         | JField.str s =>
             if s.length < 8 then ["Password must be at least 8 characters long"]
             else []) := by
  refine ⟨?_, ?_, ?_, rfl⟩
  · intro hcreate
    simp [usersPOST, createUserParse_eq_none ev dv b hcreate, handleValidationError]
  · intro hlogin
    simp [loginPOST, loginParse_eq_none ev b hlogin, handleValidationError]
  · intro hauth hupdate
    simp [usersIdPATCH, hauth, updateUserParse_eq_none dv b hupdate,
      handleValidationError]

/-- C9 witness: the amended statement discharged at the body whose
`firstName` is empty and whose other keys are absent, which all three
schemas reject. -/
theorem c9_witness :
    usersPOST acceptAll acceptAll demoHash constToken "new-id" 2 [] badBody
      = (createErrorResponse
          ("Validation error: "
            ++ String.intercalate ", " (createUserIssues acceptAll acceptAll badBody))
          400, []) ∧
    loginPOST acceptAll denyCompare constToken [] badBody
      = createErrorResponse
          ("Validation error: " ++ String.intercalate ", " (loginIssues acceptAll badBody))
          400 ∧
    usersIdPATCH demoVerify acceptAll [] (some "Bearer tok-A") "A" badBody
      = (createErrorResponse
          ("Validation error: "
            ++ String.intercalate ", " (updateUserIssues acceptAll badBody))
          400, []) ∧
    createUserIssues acceptAll acceptAll badBody
      = emailIssues acceptAll badBody.email ++
        nameIssues "First name is required" badBody.firstName ++
        nameIssues "Last name is required" badBody.lastName ++
        dobIssues acceptAll badBody.dateOfBirth ++
        (match badBody.password with
         | JField.absent => ["Required"]
         | JField.str s =>
             if s.length < 8 then ["Password must be at least 8 characters long"]
             else []) :=
  have h := c9_validation_error_string acceptAll acceptAll demoHash constToken
    denyCompare demoVerify "new-id" 2 [] (some "Bearer tok-A") "A" "A" badBody
  ⟨h.1 (by decide), h.2.1 (by decide), h.2.2.1 (by rfl) (by decide), h.2.2.2⟩
